import Mathlib

/-!
Shallow embedding of the configuration loader of SxxAq/go-api
(file internal/config/config.go, package config).

The loader `MustLoad` resolves a configuration file path from the
CONFIG_PATH environment variable or the -config command-line flag,
checks that the file exists, and reads it through cleanenv.ReadConfig
into a Config struct.  All ambient inputs (environment variables, the
parsed flag value, the filesystem) are gathered into a `World` record,
and fatal termination via log.Fatal / log.Fatalf is represented by the
`LoadResult.fatal` constructor carrying the diagnostic message.
-/

namespace GoApi

/-- Result of `os.Stat` on a path, as observed through `os.IsNotExist`:
either the stat succeeded, or it failed with a not-exist error, or it
failed with some other error (for example a permission error). -/
inductive StatResult where
  | ok
  | notExist
  | otherError
  deriving DecidableEq, Repr

/-- The raw values decoded from the YAML file, before any
environment-variable override: keys `env`, `storage_path` and the
nested `http_server.addr`.  A key absent from the file decodes to the
empty string. -/
structure YamlConfig where
  env : String
  storage_path : String
  addr : String
  deriving DecidableEq, Repr

/-- HttpServer holds HTTP server-specific configuration
(field Addr, YAML key `addr`). -/
structure HttpServer where
  Addr : String
  deriving DecidableEq, Repr

/-- Config is the main application configuration struct.
Env has tags yaml:"env" env:"ENV" env-required:"true";
StoragePath has tags yaml:"storage_path" env-required:"true";
the embedded HttpServer has tag yaml:"http_server". -/
structure Config where
  Env : String
  StoragePath : String
  httpServer : HttpServer
  deriving DecidableEq, Repr

/-- The ambient inputs consumed by one invocation of MustLoad:
the CONFIG_PATH environment variable as returned by os.Getenv
(empty string when unset), the value of the -config flag after
flag.Parse (empty string when not provided), the general environment
lookup used for field-level overrides (`none` when the variable is
unset), the stat outcome per path, and the combined read-and-decode
outcome of the YAML file at each path (`Except.error` carries the
underlying read or parse error text). -/
structure World where
  configPathEnv : String
  configFlag : String
  lookupEnv : String → Option String
  stat : String → StatResult
  parseFile : String → Except String YamlConfig

/-- Outcome of MustLoad: either the process terminates through
log.Fatal / log.Fatalf (message written to standard error, exit code 1)
or the populated Config is returned and the process continues. -/
inductive LoadResult where
  | fatal (msg : String)
  | ok (cfg : Config)
  deriving DecidableEq, Repr

/-- Modelled from the spec: `cleanenv.ReadConfig` is third-party library
code not present under src/.  Per the spec it reads the file as YAML
into the struct, mapping keys `env`, `storage_path` and nested
`http_server.addr`; then any field tagged as overridable-by-environment
(only Env, tagged env:"ENV") is replaced by the value of that
environment variable if set; finally the fields marked required
(Env and StoragePath, tagged env-required:"true") must be non-empty,
otherwise an error identifying the missing field is returned. -/
def ReadConfig (w : World) (path : String) : Except String Config :=
  match w.parseFile path with
  | .error e => .error e
  | .ok y =>
      let envVal := (w.lookupEnv "ENV").getD y.env
      if envVal = "" then
        .error "field \"Env\" is required but the value is not provided"
      else if y.storage_path = "" then
        .error "field \"StoragePath\" is required but the value is not provided"
      else
        .ok ⟨envVal, y.storage_path, ⟨y.addr⟩⟩

/-- Path resolution of MustLoad, lines 29-45: cfgPath starts as
os.Getenv("CONFIG_PATH"); only if that is empty is the -config flag
consulted. -/
def resolvePath (w : World) : String :=
  if w.configPathEnv = "" then w.configFlag else w.configPathEnv

/-- MustLoad loads the configuration from environment variable,
command-line flag, or YAML file, stopping the program on any failure
(config.go lines 28-65).  Resolution: CONFIG_PATH first, then the
-config flag, else log.Fatal; then os.Stat with os.IsNotExist guards
the "Config file does not exist" fatal; then cleanenv.ReadConfig
populates the struct, any error becoming the "Cannot read config file"
fatal. -/
def MustLoad (w : World) : LoadResult :=
  let cfgPath := resolvePath w
  if cfgPath = "" then
    .fatal "Config path is not set. Use CONFIG_PATH env or -config flag"
  else if w.stat cfgPath = .notExist then
    .fatal ("Config file does not exist: " ++ cfgPath)
  else
    match ReadConfig w cfgPath with
    | .error e => .fatal ("Cannot read config file: " ++ e)
    | .ok cfg => .ok cfg

/-- A concrete world used by the witness theorems: CONFIG_PATH set to
"/etc/app.yaml", the flag left empty, ENV unset, every stat succeeding,
and the file decoding to env "prod", storage_path "/data",
addr "localhost:8080". -/
def wHappy : World where
  configPathEnv := "/etc/app.yaml"
  configFlag := ""
  lookupEnv := fun _ => none
  stat := fun _ => .ok
  parseFile := fun _ => .ok ⟨"prod", "/data", "localhost:8080"⟩

/-- A world in which neither CONFIG_PATH nor -config provides a path. -/
def wNoPath : World where
  configPathEnv := ""
  configFlag := ""
  lookupEnv := fun _ => none
  stat := fun _ => .ok
  parseFile := fun _ => .ok ⟨"prod", "/data", ""⟩

/-- A world whose resolved path does not exist on disk. -/
def wNotExist : World where
  configPathEnv := "/missing.yaml"
  configFlag := ""
  lookupEnv := fun _ => none
  stat := fun _ => .notExist
  parseFile := fun _ => .error "open /missing.yaml: no such file or directory"

/-- A world whose file is present but malformed YAML. -/
def wParseErr : World where
  configPathEnv := "/etc/app.yaml"
  configFlag := ""
  lookupEnv := fun _ => none
  stat := fun _ => .ok
  parseFile := fun _ => .error "yaml: line 2: mapping values are not allowed in this context"

/-- A world whose file omits the required storage_path key. -/
def wMissingSP : World where
  configPathEnv := "/etc/app.yaml"
  configFlag := ""
  lookupEnv := fun _ => none
  stat := fun _ => .ok
  parseFile := fun _ => .ok ⟨"prod", "", ""⟩

/-- A world whose file omits the required env key and ENV is unset. -/
def wMissingEnv : World where
  configPathEnv := "/etc/app.yaml"
  configFlag := ""
  lookupEnv := fun _ => none
  stat := fun _ => .ok
  parseFile := fun _ => .ok ⟨"", "/data", ""⟩

/-- A world with ENV set to "staging" while the file says env: prod. -/
def wStaging : World where
  configPathEnv := "/etc/app.yaml"
  configFlag := ""
  lookupEnv := fun v => if v = "ENV" then some "staging" else none
  stat := fun _ => .ok
  parseFile := fun _ => .ok ⟨"prod", "/data", "localhost:8080"⟩

/-- A world that agrees with wHappy on every observation MustLoad makes
(CONFIG_PATH, the flag, the ENV variable, stat and file contents at the
resolved path) but differs elsewhere: other environment variables, and
stat and parse results at unrelated paths. -/
def wHappyTwin : World where
  configPathEnv := "/etc/app.yaml"
  configFlag := ""
  lookupEnv := fun v => if v = "OTHER" then some "x" else none
  stat := fun p => if p = "/etc/app.yaml" then .ok else .notExist
  parseFile := fun p =>
    if p = "/etc/app.yaml" then .ok ⟨"prod", "/data", "localhost:8080"⟩
    else .error "unrelated"

/-- A world where stat fails with a permission error rather than
non-existence, and reading the file subsequently fails. -/
def wPermErr : World where
  configPathEnv := "/root/secret.yaml"
  configFlag := ""
  lookupEnv := fun _ => none
  stat := fun _ => .otherError
  parseFile := fun _ => .error "open /root/secret.yaml: permission denied"

/-- The two fatal diagnostics of the existence check and of the read
step never coincide: their fixed prefixes already differ. -/
theorem cannot_read_ne_not_exist (e p : String) :
    ("Cannot read config file: " ++ e) ≠ ("Config file does not exist: " ++ p) := by
  intro h
  have h2 : ("Cannot read config file: " ++ e).data
      = ("Config file does not exist: " ++ p).data := by rw [h]
  simp [String.data_append] at h2

/-- Characterization of successful loads: MustLoad returns a Config
exactly when the path resolves, the stat is not a not-exist failure,
the file decodes, and both required fields are non-empty after the ENV
override; the returned Config is then determined by the file and the
override. -/
theorem mustLoad_ok_iff (w : World) (cfg : Config) :
    MustLoad w = .ok cfg ↔
      resolvePath w ≠ "" ∧ w.stat (resolvePath w) ≠ .notExist ∧
      ∃ y, w.parseFile (resolvePath w) = .ok y ∧
        (w.lookupEnv "ENV").getD y.env ≠ "" ∧ y.storage_path ≠ "" ∧
        cfg = ⟨(w.lookupEnv "ENV").getD y.env, y.storage_path, ⟨y.addr⟩⟩ := by
  by_cases h1 : resolvePath w = ""
  · simp [MustLoad, h1]
  · by_cases h2 : w.stat (resolvePath w) = .notExist
    · simp [MustLoad, h1, h2]
    · cases hp : w.parseFile (resolvePath w) with
      | error e => simp [MustLoad, ReadConfig, h1, h2, hp]
      | ok y =>
        by_cases h3 : (w.lookupEnv "ENV").getD y.env = ""
        · simp [MustLoad, ReadConfig, h1, h2, hp, h3]
        · by_cases h4 : y.storage_path = ""
          · simp [MustLoad, ReadConfig, h1, h2, hp, h3, h4]
          · simp [MustLoad, ReadConfig, h1, h2, hp, h3, h4, eq_comm]
            constructor
            · intro h
              exact ⟨fun he => h3 he.symm, fun he => h4 he.symm, h⟩
            · intro h
              exact h.2.2

/-- C1: Path resolution is first-match-wins: when CONFIG_PATH is
non-empty its value is the resolved path and the -config flag is never
consulted (the outcome is independent of the flag value); when
CONFIG_PATH is empty a non-empty -config flag value is the resolved
path; when both are empty the loader terminates with "Config path is
not set. Use CONFIG_PATH env or -config flag". -/
theorem c1_path_resolution (w : World) :
    (w.configPathEnv ≠ "" →
      resolvePath w = w.configPathEnv ∧
      ∀ g, MustLoad { w with configFlag := g } = MustLoad w) ∧
    (w.configPathEnv = "" → w.configFlag ≠ "" →
      resolvePath w = w.configFlag) ∧
    (w.configPathEnv = "" → w.configFlag = "" →
      MustLoad w = .fatal "Config path is not set. Use CONFIG_PATH env or -config flag") := by
  refine ⟨fun h => ⟨?_, ?_⟩, fun h1 h2 => ?_, fun h1 h2 => ?_⟩
  · simp [resolvePath, h]
  · intro g
    simp [MustLoad, ReadConfig, resolvePath, h]
  · simp [resolvePath, h1]
  · simp [MustLoad, resolvePath, h1, h2]

/-- Witness for c1_path_resolution: with CONFIG_PATH set the resolved
path is its value, and with neither source set the loader terminates
with the documented message. -/
theorem c1_path_resolution_witness :
    resolvePath wHappy = "/etc/app.yaml" ∧
    MustLoad wNoPath = .fatal "Config path is not set. Use CONFIG_PATH env or -config flag" :=
  ⟨((c1_path_resolution wHappy).1 (by decide)).1,
   (c1_path_resolution wNoPath).2.2 rfl rfl⟩

/-- C2: After a successful load both Env and StoragePath are non-empty;
conversely, when the file decodes but a required field is empty after
the ENV override, the loader terminates with a diagnostic naming that
field. -/
theorem c2_required_fields (w : World) :
    (∀ cfg, MustLoad w = .ok cfg → cfg.Env ≠ "" ∧ cfg.StoragePath ≠ "") ∧
    (∀ y, resolvePath w ≠ "" → w.stat (resolvePath w) ≠ .notExist →
      w.parseFile (resolvePath w) = .ok y →
      ((w.lookupEnv "ENV").getD y.env = "" →
        MustLoad w = .fatal "Cannot read config file: field \"Env\" is required but the value is not provided") ∧
      ((w.lookupEnv "ENV").getD y.env ≠ "" → y.storage_path = "" →
        MustLoad w = .fatal "Cannot read config file: field \"StoragePath\" is required but the value is not provided")) := by
  constructor
  · intro cfg h
    obtain ⟨-, -, y, -, henv, hsp, hcfg⟩ := (mustLoad_ok_iff w cfg).mp h
    subst hcfg
    exact ⟨henv, hsp⟩
  · intro y h1 h2 hp
    constructor
    · intro h3
      simp [MustLoad, ReadConfig, h1, h2, hp, h3]
    · intro h3 h4
      simp [MustLoad, ReadConfig, h1, h2, hp, h3, h4]

/-- Witness for c2_required_fields: the happy world yields non-empty
required fields, and the worlds missing env or storage_path terminate
naming the missing field. -/
theorem c2_required_fields_witness :
    ((⟨"prod", "/data", ⟨"localhost:8080"⟩⟩ : Config).Env ≠ "" ∧
     (⟨"prod", "/data", ⟨"localhost:8080"⟩⟩ : Config).StoragePath ≠ "") ∧
    MustLoad wMissingEnv = .fatal "Cannot read config file: field \"Env\" is required but the value is not provided" ∧
    MustLoad wMissingSP = .fatal "Cannot read config file: field \"StoragePath\" is required but the value is not provided" :=
  ⟨(c2_required_fields wHappy).1 ⟨"prod", "/data", ⟨"localhost:8080"⟩⟩ (by decide),
   ((c2_required_fields wMissingEnv).2 ⟨"", "/data", ""⟩ (by decide) (by decide) rfl).1 rfl,
   ((c2_required_fields wMissingSP).2 ⟨"prod", "", ""⟩ (by decide) (by decide) rfl).2 (by decide) rfl⟩

/-- C3: With ENV set to "staging" and the file containing env: prod
(and the load otherwise succeeding), the loaded Config has Env equal
to "staging": the environment override beats the file value. -/
theorem c3_env_override (w : World) (y : YamlConfig)
    (hpath : resolvePath w ≠ "")
    (hstat : w.stat (resolvePath w) ≠ .notExist)
    (hparse : w.parseFile (resolvePath w) = .ok y)
    (henv : w.lookupEnv "ENV" = some "staging")
    (_hyaml : y.env = "prod")
    (hsp : y.storage_path ≠ "") :
    ∃ cfg, MustLoad w = .ok cfg ∧ cfg.Env = "staging" := by
  refine ⟨⟨"staging", y.storage_path, ⟨y.addr⟩⟩, ?_, rfl⟩
  apply (mustLoad_ok_iff w _).mpr
  refine ⟨hpath, hstat, y, hparse, ?_, hsp, ?_⟩ <;> simp [henv]

/-- Witness for c3_env_override at the concrete staging world. -/
theorem c3_env_override_witness :
    ∃ cfg, MustLoad wStaging = .ok cfg ∧ cfg.Env = "staging" :=
  c3_env_override wStaging ⟨"prod", "/data", "localhost:8080"⟩
    (by decide) (by decide) rfl rfl rfl (by decide)

/-- C4: When stat reports that the resolved path does not exist, the
loader terminates with "Config file does not exist: " followed by that
resolved path. -/
theorem c4_file_not_exist (w : World)
    (hpath : resolvePath w ≠ "")
    (hstat : w.stat (resolvePath w) = .notExist) :
    MustLoad w = .fatal ("Config file does not exist: " ++ resolvePath w) := by
  simp [MustLoad, hpath, hstat]

/-- Witness for c4_file_not_exist at the concrete missing-file world. -/
theorem c4_file_not_exist_witness :
    MustLoad wNotExist = .fatal ("Config file does not exist: " ++ resolvePath wNotExist) :=
  c4_file_not_exist wNotExist (by decide) rfl

/-- C5: The loader is all-or-nothing: every run either terminates
fatally (log.Fatal: message on standard error, exit code 1) or returns
a Config; a Config is returned exactly when none of the four failure
conditions holds (path unresolved, file not found, decode failure,
required field empty after override), and a returned Config is never
partially populated: its required fields are non-empty. -/
theorem c5_fail_fast (w : World) :
    ((∃ msg, MustLoad w = .fatal msg) ∨ (∃ cfg, MustLoad w = .ok cfg)) ∧
    ((∃ cfg, MustLoad w = .ok cfg) ↔
      (resolvePath w ≠ "" ∧ w.stat (resolvePath w) ≠ .notExist ∧
       ∃ y, w.parseFile (resolvePath w) = .ok y ∧
         (w.lookupEnv "ENV").getD y.env ≠ "" ∧ y.storage_path ≠ "")) ∧
    (∀ cfg, MustLoad w = .ok cfg → cfg.Env ≠ "" ∧ cfg.StoragePath ≠ "") := by
  refine ⟨?_, ⟨?_, ?_⟩, ?_⟩
  · cases h : MustLoad w with
    | fatal msg => exact Or.inl ⟨msg, rfl⟩
    | ok cfg => exact Or.inr ⟨cfg, rfl⟩
  · rintro ⟨cfg, h⟩
    obtain ⟨h1, h2, y, hp, henv, hsp, -⟩ := (mustLoad_ok_iff w cfg).mp h
    exact ⟨h1, h2, y, hp, henv, hsp⟩
  · rintro ⟨h1, h2, y, hp, henv, hsp⟩
    exact ⟨_, (mustLoad_ok_iff w _).mpr ⟨h1, h2, y, hp, henv, hsp, rfl⟩⟩
  · intro cfg h
    obtain ⟨-, -, y, -, henv, hsp, hcfg⟩ := (mustLoad_ok_iff w cfg).mp h
    subst hcfg
    exact ⟨henv, hsp⟩

/-- Witness for c5_fail_fast: the success characterization applied to
the concrete happy world. -/
theorem c5_fail_fast_witness :
    ∃ cfg, MustLoad wHappy = .ok cfg :=
  ((c5_fail_fast wHappy).2.1).mpr
    ⟨by decide, by decide, ⟨"prod", "/data", "localhost:8080"⟩, rfl, by decide, by decide⟩

/-- C6: When the file at the resolved path fails to read or decode,
the loader terminates with "Cannot read config file: " followed by the
underlying error text. -/
theorem c6_parse_error (w : World) (e : String)
    (hpath : resolvePath w ≠ "")
    (hstat : w.stat (resolvePath w) ≠ .notExist)
    (hparse : w.parseFile (resolvePath w) = .error e) :
    MustLoad w = .fatal ("Cannot read config file: " ++ e) := by
  simp [MustLoad, ReadConfig, hpath, hstat, hparse]

/-- Witness for c6_parse_error at the concrete malformed-YAML world. -/
theorem c6_parse_error_witness :
    MustLoad wParseErr
      = .fatal ("Cannot read config file: " ++ "yaml: line 2: mapping values are not allowed in this context") :=
  c6_parse_error wParseErr "yaml: line 2: mapping values are not allowed in this context"
    (by decide) (by decide) rfl

/-- C7: With CONFIG_PATH pointing at an existing file decoding to
env: prod and storage_path: /data (and the ENV override unset), the
loader returns a Config with Env "prod" and StoragePath "/data". -/
theorem c7_happy_path (w : World) (y : YamlConfig)
    (hcp : w.configPathEnv ≠ "")
    (hstat : w.stat w.configPathEnv ≠ .notExist)
    (hparse : w.parseFile w.configPathEnv = .ok y)
    (henv : y.env = "prod")
    (hsp : y.storage_path = "/data")
    (hnoenv : w.lookupEnv "ENV" = none) :
    ∃ cfg, MustLoad w = .ok cfg ∧ cfg.Env = "prod" ∧ cfg.StoragePath = "/data" := by
  have hr : resolvePath w = w.configPathEnv := by simp [resolvePath, hcp]
  refine ⟨⟨"prod", "/data", ⟨y.addr⟩⟩, ?_, rfl, rfl⟩
  apply (mustLoad_ok_iff w _).mpr
  rw [hr]
  exact ⟨hcp, hstat, y, hparse, by simp [hnoenv, henv], by simp [hsp], by simp [hnoenv, henv, hsp]⟩

/-- Witness for c7_happy_path at the concrete happy world. -/
theorem c7_happy_path_witness :
    ∃ cfg, MustLoad wHappy = .ok cfg ∧ cfg.Env = "prod" ∧ cfg.StoragePath = "/data" :=
  c7_happy_path wHappy ⟨"prod", "/data", "localhost:8080"⟩
    (by decide) (by decide) rfl rfl rfl rfl

/-- C8: Loading is deterministic: two worlds that agree on CONFIG_PATH,
on the -config flag, on the ENV override variable, and on the stat and
file contents at the resolved path yield equal outcomes. -/
theorem c8_deterministic (w1 w2 : World)
    (h1 : w1.configPathEnv = w2.configPathEnv)
    (h2 : w1.configFlag = w2.configFlag)
    (h3 : w1.lookupEnv "ENV" = w2.lookupEnv "ENV")
    (h4 : w1.stat (resolvePath w1) = w2.stat (resolvePath w2))
    (h5 : w1.parseFile (resolvePath w1) = w2.parseFile (resolvePath w2)) :
    MustLoad w1 = MustLoad w2 := by
  have hr : resolvePath w1 = resolvePath w2 := by simp [resolvePath, h1, h2]
  rw [hr] at h4 h5
  simp only [MustLoad, ReadConfig, hr, h3, h4, h5]

/-- Witness for c8_deterministic: the happy world and its twin (which
differs in unrelated environment variables and at unrelated paths)
load identically. -/
theorem c8_deterministic_witness :
    MustLoad wHappy = MustLoad wHappyTwin :=
  c8_deterministic wHappy wHappyTwin rfl rfl (by decide) (by decide) rfl

/-- C9: The override step touches only the Env field: a successful
Config takes StoragePath and httpServer.Addr verbatim from the decoded
file, and the outcome depends on the environment only through the ENV
variable (changing any other variable changes nothing). -/
theorem c9_override_frame (w : World) :
    (∀ cfg, MustLoad w = .ok cfg →
      ∃ y, w.parseFile (resolvePath w) = .ok y ∧
        cfg.StoragePath = y.storage_path ∧ cfg.httpServer.Addr = y.addr) ∧
    (∀ f : String → Option String, f "ENV" = w.lookupEnv "ENV" →
      MustLoad { w with lookupEnv := f } = MustLoad w) := by
  constructor
  · intro cfg h
    obtain ⟨-, -, y, hp, -, -, hcfg⟩ := (mustLoad_ok_iff w cfg).mp h
    subst hcfg
    exact ⟨y, hp, rfl, rfl⟩
  · intro f hf
    unfold MustLoad ReadConfig
    simp [resolvePath, hf]

/-- Witness for c9_override_frame: replacing the whole environment of
the happy world by one that is empty except for agreement on ENV does
not change the outcome. -/
theorem c9_override_frame_witness :
    MustLoad { wHappy with lookupEnv := fun _ => none } = MustLoad wHappy :=
  (c9_override_frame wHappy).2 (fun _ => none) rfl

/-- C10: Only a not-exist stat outcome triggers the "Config file does
not exist" termination: with any other stat failure the loader never
emits that diagnostic and proceeds to the read step, terminating with
"Cannot read config file: " and the read error when reading fails. -/
theorem c10_stat_other_error (w : World)
    (hpath : resolvePath w ≠ "")
    (hstat : w.stat (resolvePath w) = .otherError) :
    MustLoad w ≠ .fatal ("Config file does not exist: " ++ resolvePath w) ∧
    (∀ e, w.parseFile (resolvePath w) = .error e →
      MustLoad w = .fatal ("Cannot read config file: " ++ e)) := by
  have hne : w.stat (resolvePath w) ≠ .notExist := by
    rw [hstat]
    intro h
    cases h
  constructor
  · cases hp : w.parseFile (resolvePath w) with
    | error e =>
      simp only [MustLoad, ReadConfig, hpath, hne, hp, if_neg, if_neg hpath]
      simp [hne]
      exact cannot_read_ne_not_exist e (resolvePath w)
    | ok y =>
      by_cases h3 : (w.lookupEnv "ENV").getD y.env = ""
      · simp [MustLoad, ReadConfig, hpath, hne, hp, h3]
        exact cannot_read_ne_not_exist _ (resolvePath w)
      · by_cases h4 : y.storage_path = ""
        · simp [MustLoad, ReadConfig, hpath, hne, hp, h3, h4]
          exact cannot_read_ne_not_exist _ (resolvePath w)
        · simp [MustLoad, ReadConfig, hpath, hne, hp, h3, h4]
  · intro e hp
    simp [MustLoad, ReadConfig, hpath, hne, hp]

/-- Witness for c10_stat_other_error at the concrete permission-error
world. -/
theorem c10_stat_other_error_witness :
    MustLoad wPermErr ≠ .fatal ("Config file does not exist: " ++ resolvePath wPermErr) ∧
    MustLoad wPermErr = .fatal ("Cannot read config file: " ++ "open /root/secret.yaml: permission denied") :=
  ⟨(c10_stat_other_error wPermErr (by decide) rfl).1,
   (c10_stat_other_error wPermErr (by decide) rfl).2 "open /root/secret.yaml: permission denied" rfl⟩

end GoApi
